import Mathlib

/-!
Verification of `cloudtask/settings.py`: a lazily-resolved, cache-backed
settings accessor for the cloud-task library, layered over Django's global
settings object and its `setting_changed` signal.

The Python module is embedded shallowly:

* Python values that can appear as setting values are the inductive `PyVal`
  (`None`, strings, ints, bools, lists, tuples, and imported objects,
  the latter identified by their dotted path).
* Python dicts keyed by strings are association lists (`Dict`), with
  first-match lookup, insert-or-overwrite and delete.
* The Django global settings object is a `Host`: an association from
  top-level setting names to the (dict-valued) configuration stored there.
* Dynamic import (`django.utils.module_loading.import_string`) is a
  parameter `ImportEnv`: for each dotted path, either the object it denotes
  or the `ImportError` (class name and message) that importing it raises.
* The `TaskSettings` instance state is a structure: its `_user_settings`
  instance attribute (absent after `reload`, hence an `Option`), the
  `defaults` and `import_strings` attributes, the `_cached_attrs` set and
  the memoized setting attributes living in the instance dict
  (`attr_cache`).  A Python attribute read first consults the instance
  dict and only then the `__getattr__` hook; `TaskSettings.getattr` models
  this whole read path.  Exceptions are modelled with `Except`.
-/

inductive PyVal where
  | none
  | str (s : String)
  | int (n : Int)
  | bool (b : Bool)
  | list (xs : List PyVal)
  | tuple (xs : List PyVal)
  | obj (path : String)

/-- A Python dict with string keys, as an association list. -/
abbrev Dict := List (String × PyVal)

/-- First-match lookup, `d[k]` / `k in d`. -/
def dictGet (d : Dict) (k : String) : Option PyVal :=
  match d with
  | [] => Option.none
  | (k0, v0) :: rest => if k0 = k then some v0 else dictGet rest k

/-- `setattr`-style insert-or-overwrite. -/
def dictSet (d : Dict) (k : String) (v : PyVal) : Dict :=
  (k, v) :: d.filter (fun p => p.1 ≠ k)

/-- The Django global settings object: its attributes that hold dict-valued
configuration namespaces (the only shape the accessor ever reads). -/
abbrev Host := List (String × Dict)

def hostGet (h : Host) (k : String) : Option Dict :=
  match h with
  | [] => Option.none
  | (k0, v0) :: rest => if k0 = k then some v0 else hostGet rest k

/-- The cause of a failed dynamic import: the exception's class name and
message, as interpolated by `%s: %s`. -/
structure ImportCause where
  clsName : String
  msg : String

/-- `import_string`: per dotted path, the object it denotes or the
`ImportError` raised. -/
abbrev ImportEnv := String → Except ImportCause PyVal

def DEFAULTS : Dict := [
  ("DEFAULT_CLIENT_CLASS", .str "cloudtask.client.BaseTaskClient"),
  ("DEFAULT_AUTHENTICATION_CLASS ", .str "cloudtask.client.BaseAuthenticationClass"),
  ("DEFAULT_QUOTE_ID", .none),
  ("DEFAULT_QUOTE_LOCATION", .none),
  ("DEFAULT_TASK_HANDLER_ROOT_URL", .str ""),
  ("DEFAULT_TASK_RATE_LIMIT", .int 10),
  ("DEFAULT_TASK_RATE_INTERVAL", .int 1),
  ("DEFAULT_TASK_EXECUTE_LOCALLY", .bool false)
]

def IMPORT_STRINGS : List String := [
  "DEFAULT_RENDERER_CLASSES",
  "DEFAULT_PARSER_CLASSES"
]

/-- The wrapped message
`"Could not import \x27%s\x27 for Task setting \x27%s\x27. %s: %s."` with the
path, the setting name, the cause's class name and the cause's message
interpolated. -/
def could_not_import_msg (val setting_name cls m : String) : String :=
  "Could not import \x27" ++ val ++ "\x27 for Task setting \x27" ++
    setting_name ++ "\x27. " ++ cls ++ ": " ++ m ++ "."

/-- `import_from_string(val, setting_name)`: call `import_string(val)`,
wrapping an `ImportError` with the path, the setting name and the cause. -/
def import_from_string (env : ImportEnv) (val : String) (setting_name : String) :
    Except String PyVal :=
  match env val with
  | .ok o => .ok o
  | .error e => .error (could_not_import_msg val setting_name e.clsName e.msg)

/-- One item of the comprehension `[import_from_string(item, setting_name)
for item in val]`; `import_string` calls `.rsplit` on its argument, so a
non-string item raises an (uncaught) `AttributeError`. -/
inductive PyErr where
  | attributeError (msg : String)
  | importError (msg : String)

def import_item (env : ImportEnv) (item : PyVal) (setting_name : String) :
    Except PyErr PyVal :=
  match item with
  | .str s =>
      match import_from_string env s setting_name with
      | .ok o => .ok o
      | .error m => .error (.importError m)
  | _ => .error (.attributeError "rsplit")

/-- The comprehension over a list or tuple, left to right, first raise
propagating. -/
def import_items (env : ImportEnv) (items : List PyVal) (setting_name : String) :
    Except PyErr (List PyVal) :=
  match items with
  | [] => .ok []
  | item :: rest =>
      match import_item env item setting_name with
      | .error e => .error e
      | .ok v =>
          match import_items env rest setting_name with
          | .error e => .error e
          | .ok vs => .ok (v :: vs)

/-- `perform_import(val, setting_name)`. -/
def perform_import (env : ImportEnv) (val : PyVal) (setting_name : String) :
    Except PyErr PyVal :=
  match val with
  | .none => .ok .none
  | .str s =>
      match import_from_string env s setting_name with
      | .ok o => .ok o
      | .error m => .error (.importError m)
  | .list xs =>
      match import_items env xs setting_name with
      | .ok vs => .ok (.list vs)
      | .error e => .error e
  | .tuple xs =>
      match import_items env xs setting_name with
      | .ok vs => .ok (.list vs)
      | .error e => .error e
  | v => .ok v

/-- The state of a `TaskSettings` instance. -/
structure TaskSettings where
  /-- The `_user_settings` instance attribute; `Option.none` models the
  attribute being absent (deleted by `reload`). -/
  _user_settings : Option Dict
  defaults : Dict
  import_strings : List String
  _cached_attrs : List String
  /-- The memoized setting attributes written by `setattr(self, attr, val)`
  into the instance dict. -/
  attr_cache : Dict

/-- `TaskSettings.__init__(defaults, import_strings)`; `defaults or DEFAULTS`
falls back when the argument is `None` or empty (falsy). -/
def TaskSettings.init (defaults : Option Dict) (import_strings : Option (List String)) :
    TaskSettings :=
  { _user_settings := some []
  , defaults :=
      match defaults with
      | some d => if d.isEmpty then DEFAULTS else d
      | Option.none => DEFAULTS
  , import_strings :=
      match import_strings with
      | some l => if l.isEmpty then IMPORT_STRINGS else l
      | Option.none => IMPORT_STRINGS
  , _cached_attrs := []
  , attr_cache := [] }

/-- The fetch inside the `user_settings` property:
`getattr(settings, \x27REST_FRAMEWORK\x27, \x7b\x7d)`. -/
def fetch_user_settings (host : Host) : Dict :=
  (hostGet host "REST_FRAMEWORK").getD []

/-- The `user_settings` property: return the cached `_user_settings`, or
fetch, store and return it.  Returns the mapping and the updated state. -/
def TaskSettings.user_settings (st : TaskSettings) (host : Host) : Dict × TaskSettings :=
  match st._user_settings with
  | some us => (us, st)
  | Option.none =>
      (fetch_user_settings host,
       { st with _user_settings := some (fetch_user_settings host) })

/-- `self._cached_attrs.add(attr); setattr(self, attr, val)`. -/
def TaskSettings.memoize (st : TaskSettings) (attr : String) (v : PyVal) : TaskSettings :=
  { st with
    _cached_attrs :=
      if st._cached_attrs.contains attr then st._cached_attrs
      else attr :: st._cached_attrs
  , attr_cache := dictSet st.attr_cache attr v }

/-- A full Python attribute read `ts.attr` for a setting name: the instance
dict first (memoized values short-circuit), then the `__getattr__` hook:
unknown-name check, user-settings lookup with default fallback, an
optional import resolution, memoization. -/
def TaskSettings.getattr (st : TaskSettings) (host : Host) (env : ImportEnv)
    (attr : String) : Except PyErr PyVal × TaskSettings :=
  match dictGet st.attr_cache attr with
  | some v => (.ok v, st)
  | Option.none =>
      match dictGet st.defaults attr with
      | Option.none =>
          (.error (.attributeError ("Invalid API setting: \x27" ++ attr ++ "\x27")), st)
      | some dflt =>
          match (if st.import_strings.contains attr
                 then perform_import env
                   ((dictGet (st.user_settings host).1 attr).getD dflt) attr
                 else .ok ((dictGet (st.user_settings host).1 attr).getD dflt)) with
          | .error e => (.error e, (st.user_settings host).2)
          | .ok v => (.ok v, TaskSettings.memoize (st.user_settings host).2 attr v)

/-- `TaskSettings.reload()`: `delattr` every name in `_cached_attrs`, clear
the set, and drop `_user_settings` when present. -/
def TaskSettings.reload (st : TaskSettings) : TaskSettings :=
  { st with
    attr_cache := st.attr_cache.filter (fun p => !(st._cached_attrs.contains p.1))
  , _cached_attrs := []
  , _user_settings := Option.none }

/-- The module-level singleton
`task_settings = TaskSettings(defaults=DEFAULTS, import_strings=IMPORT_STRINGS)`. -/
def task_settings : TaskSettings :=
  TaskSettings.init (some DEFAULTS) (some IMPORT_STRINGS)

/-- The `setting_changed` receiver `reload_task_settings`: reload only when
the changed setting is named `CLOUD_TASK`. -/
def reload_task_settings (st : TaskSettings) (setting : String) : TaskSettings :=
  if setting = "CLOUD_TASK" then st.reload else st

/-- An import environment in which every dotted path resolves. -/
def okEnv : ImportEnv := fun path => .ok (.obj path)

/-- An import environment in which no dotted path resolves. -/
def failEnv : ImportEnv := fun path =>
  .error { clsName := "ModuleNotFoundError"
         , msg := "No module named \x27" ++ path ++ "\x27" }

/-- A host configuration carrying overrides both under the documented
`CLOUD_TASK` namespace and under `REST_FRAMEWORK`, with different values so
the two can be told apart. -/
def hostWithOverrides : Host :=
  [("CLOUD_TASK", [("DEFAULT_TASK_RATE_LIMIT", .int 50)]),
   ("REST_FRAMEWORK", [("DEFAULT_TASK_RATE_LIMIT", .int 99)])]

/-- A host configuration whose `REST_FRAMEWORK` override differs from
`hostWithOverrides`, to observe staleness of caches. -/
def hostChanged : Host :=
  [("REST_FRAMEWORK", [("DEFAULT_TASK_RATE_LIMIT", .int 7)])]

/-- A first read of `DEFAULT_TASK_RATE_LIMIT` on the module singleton. -/
def freshRead : Except PyErr PyVal × TaskSettings :=
  task_settings.getattr [] okEnv "DEFAULT_TASK_RATE_LIMIT"

/-- A read of `DEFAULT_TASK_RATE_LIMIT` performed after one `reload`, so
the user-settings fetch from the host actually runs. -/
def reloadedRead : Except PyErr PyVal × TaskSettings :=
  (task_settings.reload).getattr hostWithOverrides okEnv "DEFAULT_TASK_RATE_LIMIT"

/-- A `TaskSettings` instance whose defaults make an import-string setting
reachable (the singleton's defaults contain no import-string key). -/
def renderTS : TaskSettings :=
  TaskSettings.init (some [("DEFAULT_RENDERER_CLASSES", .str "json.R")])
    (some IMPORT_STRINGS)

lemma dictGet_dictSet_self (d : Dict) (k : String) (v : PyVal) :
    dictGet (dictSet d k v) k = some v := by
  simp [dictGet, dictSet]

lemma dictGet_filter_removed (d : Dict) (keys : List String) (attr : String)
    (h : keys.contains attr = true) :
    dictGet (d.filter (fun p => !(keys.contains p.1))) attr = Option.none := by
  induction d with
  | nil => rfl
  | cons p rest ih =>
      obtain ⟨k0, v0⟩ := p
      rw [List.filter_cons]
      cases hk : keys.contains k0 with
      | true => simpa using ih
      | false =>
          have hne : k0 ≠ attr := by
            intro he
            rw [he, h] at hk
            cases hk
          simp only [Bool.not_false, if_true]
          rw [dictGet, if_neg hne]
          exact ih

lemma user_settings_attr_cache (st : TaskSettings) (host : Host) :
    ((st.user_settings host).2).attr_cache = st.attr_cache := by
  unfold TaskSettings.user_settings
  cases st._user_settings <;> rfl

lemma getattr_ok_cached (st : TaskSettings) (host : Host) (env : ImportEnv)
    (attr : String) (v : PyVal) (st' : TaskSettings)
    (h : st.getattr host env attr = (.ok v, st')) :
    dictGet st'.attr_cache attr = some v := by
  unfold TaskSettings.getattr at h
  split at h
  next w heq =>
      injection h with h1 h2
      injection h1 with h1
      subst h1
      subst h2
      exact heq
  next heq =>
      split at h
      next heq2 =>
          exact absurd (congrArg Prod.fst h) (by simp)
      next dflt heq2 =>
          split at h
          next e heq3 =>
              exact absurd (congrArg Prod.fst h) (by simp)
          next w heq3 =>
              injection h with h1 h2
              injection h1 with h1
              subst h1
              subst h2
              simp [TaskSettings.memoize, dictGet_dictSet_self]

/-- Claim C1: the claim says an attribute read first consults the
user-overrides mapping fetched from the host configuration, so an override
present in the host configuration is returned instead of the default.  The
code violates this: `__init__` pre-sets `_user_settings` to an empty dict,
so on the module singleton the fetch never runs and a read of
`DEFAULT_TASK_RATE_LIMIT` returns the default `10` even though the host
carries an override both under the documented `CLOUD_TASK` namespace
(value `50`) and under `REST_FRAMEWORK` (value `99`). -/
theorem c1_host_override_not_returned :
    dictGet ((hostGet hostWithOverrides "CLOUD_TASK").getD [])
      "DEFAULT_TASK_RATE_LIMIT" = some (.int 50)
    ∧ dictGet ((hostGet hostWithOverrides "REST_FRAMEWORK").getD [])
      "DEFAULT_TASK_RATE_LIMIT" = some (.int 99)
    ∧ task_settings.getattr hostWithOverrides okEnv "DEFAULT_TASK_RATE_LIMIT" =
      (.ok (.int 10), TaskSettings.memoize task_settings "DEFAULT_TASK_RATE_LIMIT" (.int 10)) :=
  ⟨rfl, rfl, rfl⟩

/-- Claim C2: the claim says the overrides are read, on first need, from the
host settings object under the library's one fixed namespace key.  The code
violates this twice: on a fresh instance `user_settings` returns the empty
dict planted by `__init__` without consulting the host at all, and once the
planted dict has been discarded by a `reload` the fetch reads the key
`REST_FRAMEWORK`, not the `CLOUD_TASK` namespace the module documents, so
it returns the `REST_FRAMEWORK` block (and the empty dict when only
`CLOUD_TASK` is configured). -/
theorem c2_fetch_key_and_laziness_wrong :
    task_settings.user_settings hostWithOverrides = ([], task_settings)
    ∧ (TaskSettings.user_settings task_settings.reload hostWithOverrides).1 =
        [("DEFAULT_TASK_RATE_LIMIT", .int 99)]
    ∧ fetch_user_settings [("CLOUD_TASK", [("DEFAULT_TASK_RATE_LIMIT", .int 50)])] = [] :=
  ⟨rfl, rfl, rfl⟩

/-- Claim C3: the claim says a `setting_changed` notification naming the
same fixed key the accessor reads its overrides from invalidates the cache
and any other key is ignored.  The code violates this: the overrides are
fetched from `REST_FRAMEWORK` (witnessed here by a post-reload read that
returns the `REST_FRAMEWORK` override `99`), yet a notification naming
`REST_FRAMEWORK` leaves the state — including the memoized value —
untouched, while the distinct key `CLOUD_TASK` is the one that clears the
cache. -/
theorem c3_signal_key_differs_from_fetch_key :
    reloadedRead.1 = .ok (.int 99)
    ∧ reload_task_settings reloadedRead.2 "REST_FRAMEWORK" = reloadedRead.2
    ∧ ((reload_task_settings reloadedRead.2 "REST_FRAMEWORK").getattr
        hostChanged okEnv "DEFAULT_TASK_RATE_LIMIT").1 = .ok (.int 99)
    ∧ (reload_task_settings reloadedRead.2 "CLOUD_TASK").attr_cache = [] :=
  ⟨rfl, rfl, rfl, rfl⟩

/-- Claim C4: every attribute name that is not a key of the defaults
mapping fails with the unknown-setting `AttributeError` naming the
offending name, whatever the host overrides and import environment; in
particular `DEFAULT_RENDERER_CLASSES` and `DEFAULT_PARSER_CLASSES`
(registered as import strings yet absent from the defaults) and
`DEFAULT_AUTHENTICATION_CLASS` without its trailing space always fail this
way on the module singleton. -/
theorem c4_unknown_setting_error :
    (∀ (st : TaskSettings) (host : Host) (env : ImportEnv) (attr : String),
        dictGet st.attr_cache attr = Option.none →
        dictGet st.defaults attr = Option.none →
        (st.getattr host env attr).1 =
          .error (.attributeError ("Invalid API setting: \x27" ++ attr ++ "\x27")))
    ∧ (∀ (host : Host) (env : ImportEnv),
        (task_settings.getattr host env "DEFAULT_RENDERER_CLASSES").1 =
          .error (.attributeError "Invalid API setting: \x27DEFAULT_RENDERER_CLASSES\x27")
        ∧ (task_settings.getattr host env "DEFAULT_PARSER_CLASSES").1 =
          .error (.attributeError "Invalid API setting: \x27DEFAULT_PARSER_CLASSES\x27")
        ∧ (task_settings.getattr host env "DEFAULT_AUTHENTICATION_CLASS").1 =
          .error (.attributeError "Invalid API setting: \x27DEFAULT_AUTHENTICATION_CLASS\x27"))
    ∧ dictGet DEFAULTS "DEFAULT_RENDERER_CLASSES" = Option.none
    ∧ dictGet DEFAULTS "DEFAULT_PARSER_CLASSES" = Option.none
    ∧ IMPORT_STRINGS.contains "DEFAULT_RENDERER_CLASSES" = true
    ∧ IMPORT_STRINGS.contains "DEFAULT_PARSER_CLASSES" = true := by
  refine ⟨?_, ?_, rfl, rfl, rfl, rfl⟩
  · intro st host env attr h1 h2
    simp [TaskSettings.getattr, h1, h2]
  · intro host env
    exact ⟨rfl, rfl, rfl⟩

/-- Witness for C4 at a concrete unknown name on the module singleton. -/
theorem c4_witness :
    (task_settings.getattr hostWithOverrides okEnv "NOT_A_SETTING").1 =
      .error (.attributeError "Invalid API setting: \x27NOT_A_SETTING\x27") :=
  c4_unknown_setting_error.1 task_settings hostWithOverrides okEnv "NOT_A_SETTING" rfl rfl

/-- Claim C5: once a first read has resolved a setting, every later read
before an invalidation returns the identical cached value and leaves the
state unchanged; the second read does not recompute anything, since it is
insensitive even to a different host configuration and a different import
environment — in particular an import-resolved value is the very value
produced by the single resolution. -/
theorem c5_memoized_read_stable
    (st st' : TaskSettings) (host host' : Host) (env env' : ImportEnv)
    (attr : String) (v : PyVal)
    (h : st.getattr host env attr = (.ok v, st')) :
    st'.getattr host' env' attr = (.ok v, st') := by
  have hc := getattr_ok_cached st host env attr v st' h
  unfold TaskSettings.getattr
  rw [hc]

/-- Witness for C5: a first read of the import-string setting
`DEFAULT_RENDERER_CLASSES` on `renderTS` resolves `json.R` to an object;
the second read returns the identical object and state even under an
environment in which every import fails and a host with different
contents. -/
theorem c5_witness :
    TaskSettings.getattr (renderTS.getattr [] okEnv "DEFAULT_RENDERER_CLASSES").2
      hostWithOverrides failEnv "DEFAULT_RENDERER_CLASSES" =
    (.ok (.obj "json.R"), (renderTS.getattr [] okEnv "DEFAULT_RENDERER_CLASSES").2) :=
  c5_memoized_read_stable renderTS _ [] hostWithOverrides okEnv failEnv
    "DEFAULT_RENDERER_CLASSES" (.obj "json.R") rfl

/-- Claim C6: `reload` removes every memoized attribute named in
`_cached_attrs`, empties `_cached_attrs`, and discards the cached
user-overrides snapshot, so the next `user_settings` access runs the fetch
against the host framework; it is pure state manipulation (no value is
produced) and on the freshly constructed singleton — where nothing has been
resolved yet — it merely drops the planted snapshot. -/
theorem c6_reload_clears_cache :
    (∀ (st : TaskSettings),
        (∀ attr, st._cached_attrs.contains attr = true →
            dictGet st.reload.attr_cache attr = Option.none)
        ∧ st.reload._cached_attrs = []
        ∧ st.reload._user_settings = Option.none
        ∧ (∀ host, st.reload.user_settings host =
            (fetch_user_settings host,
             { st.reload with _user_settings := some (fetch_user_settings host) })))
    ∧ task_settings.reload = { task_settings with _user_settings := Option.none } := by
  refine ⟨fun st => ⟨?_, rfl, rfl, fun host => rfl⟩, rfl⟩
  intro attr hattr
  exact dictGet_filter_removed st.attr_cache st._cached_attrs attr hattr

/-- Witness for C6: after a successful first read of
`DEFAULT_TASK_RATE_LIMIT` on the singleton, `reload` erases its memoized
attribute. -/
theorem c6_witness :
    dictGet (freshRead.2.reload).attr_cache "DEFAULT_TASK_RATE_LIMIT" = Option.none :=
  (c6_reload_clears_cache.1 freshRead.2).1 "DEFAULT_TASK_RATE_LIMIT" rfl

lemma import_items_map_ok (env : ImportEnv) (name : String) (f : String → PyVal) :
    ∀ xs : List String, (∀ s ∈ xs, env s = .ok (f s)) →
      import_items env (xs.map PyVal.str) name = .ok (xs.map f) := by
  intro xs
  induction xs with
  | nil => intro _; rfl
  | cons s rest ih =>
      intro h
      have hs : env s = .ok (f s) := h s (by simp)
      have hr := ih (fun t ht => h t (by simp [ht]))
      simp [import_items, import_item, import_from_string, hs, hr]

/-- Claim C7: for an import-string setting, `perform_import` leaves `None`
as `None`, replaces a single dotted-path string by the object that path
resolves to, and replaces a sequence of dotted-path strings by the sequence
of resolved objects in the same order. -/
theorem c7_import_resolution_shapes (env : ImportEnv) (name : String) (f : String → PyVal) :
    perform_import env PyVal.none name = .ok PyVal.none
    ∧ (∀ s, env s = .ok (f s) → perform_import env (.str s) name = .ok (f s))
    ∧ (∀ xs : List String, (∀ s ∈ xs, env s = .ok (f s)) →
        perform_import env (.list (xs.map PyVal.str)) name = .ok (.list (xs.map f))) := by
  refine ⟨rfl, ?_, ?_⟩
  · intro s hs
    simp [perform_import, import_from_string, hs]
  · intro xs h
    simp [perform_import, import_items_map_ok env name f xs h]

/-- Witness for C7 at a two-element list of dotted paths, resolved in an
environment where every path denotes an object. -/
theorem c7_witness :
    perform_import okEnv (.list [.str "a.B", .str "c.D"]) "DEFAULT_RENDERER_CLASSES" =
      .ok (.list [.obj "a.B", .obj "c.D"]) :=
  (c7_import_resolution_shapes okEnv "DEFAULT_RENDERER_CLASSES" PyVal.obj).2.2
    ["a.B", "c.D"] (fun _ _ => rfl)

/-- Claim C8: when a dotted path cannot be imported, `import_from_string`
raises an `ImportError` whose message embeds the original path, the setting
name being resolved, and the underlying cause's class name and message;
`perform_import` passes it through unchanged, and an attribute read whose
resolution hits it surfaces exactly that error to the caller — no fallback
value is produced and nothing is memoized (the returned state is the one
produced by the user-settings access, whose instance dict still lacks the
attribute). -/
theorem c8_import_error_propagates
    (env : ImportEnv) (path name cls m : String)
    (h : env path = .error { clsName := cls, msg := m }) :
    import_from_string env path name = .error (could_not_import_msg path name cls m)
    ∧ could_not_import_msg path name cls m =
        "Could not import \x27" ++ path ++ "\x27 for Task setting \x27" ++ name ++
          "\x27. " ++ cls ++ ": " ++ m ++ "."
    ∧ perform_import env (.str path) name =
        .error (.importError (could_not_import_msg path name cls m))
    ∧ (∀ (st : TaskSettings) (host : Host),
        dictGet st.attr_cache name = Option.none →
        dictGet st.defaults name = some (.str path) →
        dictGet (st.user_settings host).1 name = Option.none →
        st.import_strings.contains name = true →
        st.getattr host env name =
          (.error (.importError (could_not_import_msg path name cls m)),
           (st.user_settings host).2)
        ∧ dictGet ((st.user_settings host).2).attr_cache name = Option.none) := by
  refine ⟨?_, rfl, ?_, ?_⟩
  · simp [import_from_string, h]
  · simp [perform_import, import_from_string, h]
  · intro st host h1 h2 h3 h4
    have h4m : name ∈ st.import_strings := by simpa using h4
    constructor
    · simp [TaskSettings.getattr, h1, h2, h3, h4m, perform_import, import_from_string, h]
    · rw [user_settings_attr_cache]
      exact h1

/-- Witness for C8: resolving `bad.path` for `DEFAULT_RENDERER_CLASSES` in
an environment where no import succeeds yields the fully formatted
`ImportError` message. -/
theorem c8_witness :
    import_from_string failEnv "bad.path" "DEFAULT_RENDERER_CLASSES" =
      .error "Could not import \x27bad.path\x27 for Task setting \x27DEFAULT_RENDERER_CLASSES\x27. ModuleNotFoundError: No module named \x27bad.path\x27." :=
  (c8_import_error_propagates failEnv "bad.path" "DEFAULT_RENDERER_CLASSES"
    "ModuleNotFoundError" "No module named \x27bad.path\x27" rfl).1

/-- Claim C9: an import-string setting whose value is a tuple of dotted-path
strings resolves to a Python list — not a tuple — of the resolved objects,
preserving element order but not the concrete sequence type. -/
theorem c9_tuple_resolves_to_list (env : ImportEnv) (name : String) (f : String → PyVal)
    (xs : List String) (h : ∀ s ∈ xs, env s = .ok (f s)) :
    perform_import env (.tuple (xs.map PyVal.str)) name = .ok (.list (xs.map f)) := by
  simp [perform_import, import_items_map_ok env name f xs h]

/-- Witness for C9 at a concrete two-element tuple. -/
theorem c9_witness :
    perform_import okEnv (.tuple [.str "a.B", .str "c.D"]) "DEFAULT_PARSER_CLASSES" =
      .ok (.list [.obj "a.B", .obj "c.D"]) :=
  c9_tuple_resolves_to_list okEnv "DEFAULT_PARSER_CLASSES" PyVal.obj
    ["a.B", "c.D"] (fun _ _ => rfl)

/-- Claim C10: a read that fails with the unknown-setting error returns the
state completely unchanged — nothing is memoized, `_cached_attrs` is not
modified and the user-overrides snapshot is untouched — so the failed read
has no effect on later reads. -/
theorem c10_failed_read_keeps_state
    (st : TaskSettings) (host : Host) (env : ImportEnv) (attr : String)
    (h1 : dictGet st.attr_cache attr = Option.none)
    (h2 : dictGet st.defaults attr = Option.none) :
    st.getattr host env attr =
      (.error (.attributeError ("Invalid API setting: \x27" ++ attr ++ "\x27")), st) := by
  simp [TaskSettings.getattr, h1, h2]

/-- Witness for C10: a failed read of the space-free
`DEFAULT_AUTHENTICATION_CLASS` on the singleton returns the singleton
state itself. -/
theorem c10_witness :
    task_settings.getattr hostWithOverrides okEnv "DEFAULT_AUTHENTICATION_CLASS" =
      (.error (.attributeError "Invalid API setting: \x27DEFAULT_AUTHENTICATION_CLASS\x27"),
       task_settings) :=
  c10_failed_read_keeps_state task_settings hostWithOverrides okEnv
    "DEFAULT_AUTHENTICATION_CLASS" rfl rfl
